import Mathlib

/-!
Verification development for the fileflip repository (Go, Linux/amd64).

The definitions below are a shallow embedding of the program's data model
and operations, translated from the source files:
  main.go, pkg/ptrace/ptrace_linux_amd64.go, pkg/flip/file.go,
  pkg/log/log.go, pkg/env/exit.go.
Machine integers are modelled as `Nat` values (register contents are
64-bit unsigned words; theorems that depend on the width carry an
explicit `< 2^64` hypothesis).  Fallible operations return `Option` or
`Except`; a Go `panic`/`os.Exit` inside a modelled computation is
`none`.  External effects (the filesystem, the tracee's wait statuses
and registers) are passed in explicitly as state or oracle values.
-/

set_option maxHeartbeats 1000000

/-! ## Constants (main.go, pkg/env/exit.go, pkg/ptrace) -/

/-- exit code for normal exit (pkg/env/exit.go `ExitOk`). -/
def exitOk : Nat := 0

/-- exit code for command argument error (pkg/env/exit.go `ExitArgs`). -/
def exitArgs : Nat := 1

/-- exit code for system internal error (pkg/env/exit.go `ExitErr`). -/
def exitErr : Nat := 2

/-- `bit7thSet = 0x80` from pkg/ptrace. -/
def bit7thSet : Nat := 0x80

/-- `maxErrnoValue uint64 = 18446744073709547521` (comment in source: ulong(-4095)). -/
def maxErrnoValue : Nat := 18446744073709547521

/-- 2^64, the modulus of the 64-bit registers. -/
def two64 : Nat := 18446744073709551616

/-- page size; main.go hardcodes 4096, pkg/flip uses os.Getpagesize(),
which is 4096 on Linux x86-64 (the only supported platform). -/
def pageSize : Nat := 4096

/-- Linux amd64 syscall numbers and flag constants used by the flip
(values of the Go syscall package constants referenced in the source). -/
def SYS_OPEN : Nat := 2

def SYS_CLOSE : Nat := 3

def SYS_MMAP : Nat := 9

def SYS_MUNMAP : Nat := 11

def SYS_DUP2 : Nat := 33

def SYS_FCNTL : Nat := 72

def F_GETFL : Nat := 3

def O_CREAT : Nat := 64

def PROT_READ : Nat := 1

def PROT_WRITE : Nat := 2

def MAP_PRIVATE : Nat := 2

def MAP_ANONYMOUS : Nat := 32

def SIGTRAP : Nat := 5

def SIGKILL : Nat := 9

def SIGSTOP : Nat := 19

/-! ## Syscall result translation (pkg/ptrace RemoteSyscall, tail; main.go remoteSyscall) -/

/-- Reinterpret a 64-bit unsigned word as a signed 64-bit integer
(Go's `int64(rv)`). -/
def toInt64 (n : Nat) : Int :=
  if n % two64 < 9223372036854775808 then ((n % two64 : Nat) : Int)
  else ((n % two64 : Nat) : Int) - (two64 : Int)

/-- The result translation at the end of `RemoteSyscall`:
`if rv > maxErrnoValue { return -1, syscall.Errno(-int64(rv)) }
 return int64(rv), nil`.
The errno value `-int64(rv)` reinterpreted as the unsigned `Errno`
is `2^64 - rv` for `rv` in the error range.  Returns the pair
(result, optional errno). -/
def translateRv (rv : Nat) : Int × Option Nat :=
  if maxErrnoValue < rv then (-1, some (two64 - rv))
  else (toInt64 rv, none)

/-! ## Register file (syscall.PtraceRegs, amd64) -/

/-- The amd64 ptrace register file, all fields 64-bit words. -/
structure Regs where
  r15 : Nat
  r14 : Nat
  r13 : Nat
  r12 : Nat
  rbp : Nat
  rbx : Nat
  r11 : Nat
  r10 : Nat
  r9 : Nat
  r8 : Nat
  rax : Nat
  rcx : Nat
  rdx : Nat
  rsi : Nat
  rdi : Nat
  orig_rax : Nat
  rip : Nat
  cs : Nat
  eflags : Nat
  rsp : Nat
  ss : Nat
  fs_base : Nat
  gs_base : Nat
  ds : Nat
  es : Nat
  fs : Nat
  gs : Nat
  deriving DecidableEq, Repr

/-- An all-zero register file (used as a concrete sample value). -/
def regs0 : Regs :=
  ⟨0, 0, 0, 0, 0, 0, 0, 0, 0, 0, 0, 0, 0, 0, 0, 0, 0, 0, 0, 0, 0, 0, 0, 0, 0, 0, 0⟩

/-- Go's `uint64(nr)` for `nr : int` (two's-complement wrap into a word). -/
def uint64OfInt (i : Int) : Nat := (i % (two64 : Int)).toNat

/-- The argument-register assignment switch of `RemoteSyscall`
(`switch len(args)` with fallthrough, cases 6 down to 1; any other
non-zero length panics, modelled by `none`).  Args 1..6 go to
rdi, rsi, rdx, r10, r8, r9. -/
def setArgs (r : Regs) (args : List Nat) : Option Regs :=
  match args with
  | [a0] => some { r with rdi := a0 }
  | [a0, a1] => some { r with rdi := a0, rsi := a1 }
  | [a0, a1, a2] => some { r with rdi := a0, rsi := a1, rdx := a2 }
  | [a0, a1, a2, a3] => some { r with rdi := a0, rsi := a1, rdx := a2, r10 := a3 }
  | [a0, a1, a2, a3, a4] =>
      some { r with rdi := a0, rsi := a1, rdx := a2, r10 := a3, r8 := a4 }
  | [a0, a1, a2, a3, a4, a5] =>
      some { r with rdi := a0, rsi := a1, rdx := a2, r10 := a3, r8 := a4, r9 := a5 }
  | _ => none

/-- Building the injected register image in `RemoteSyscall`: copy the
snapshot, set the first N argument registers (skipped entirely when the
variadic `args` is nil, i.e. the empty list), then `reg.Orig_rax = uint64(nr)`. -/
def injectRegs (saved : Regs) (nr : Int) (args : List Nat) : Option Regs :=
  let base := if args = [] then some saved else setArgs saved args
  base.map (fun r => { r with orig_rax := uint64OfInt nr })

/-! ## The tracee controller's saved snapshot and RemoteSyscall -/

/-- The snapshot-holding part of the `Child` struct (`savedRegs`,
absent until the first observed syscall-entry stop). -/
structure Child where
  savedRegs : Option Regs
  deriving DecidableEq, Repr

/-- The snapshot in effect after `catchSyscall` runs: the already
captured one if present, otherwise the registers read at the current
(first) syscall-entry stop. -/
def snapOf (c : Child) (entryRegs : Regs) : Regs :=
  match c.savedRegs with
  | some r => r
  | none => entryRegs

/-- Result of one `RemoteSyscall` invocation: the register files written
into the tracee (in order), the translated return value and errno, and
the controller state afterwards. -/
structure RemoteResult where
  writes : List Regs
  ret : Int
  errno : Option Nat
  child : Child
  deriving DecidableEq, Repr

/-- `RemoteSyscall` (pkg/ptrace; identical logic in main.go
`remoteSyscall`): drive to syscall-entry (capturing the snapshot if not
yet captured — `entryRegs` is the register file read there), build the
injected image from a copy of the snapshot, `PtraceSetRegs` it, resume
to the syscall-exit stop, `PtraceGetRegs` (the oracle `exitRegs`), take
`Rax`, write the original snapshot back (`resumeSyscall`), and
translate the result.  A panic (more than six args) is `none`. -/
def remoteSyscall (c : Child) (entryRegs exitRegs : Regs) (nr : Int) (args : List Nat) :
    Option RemoteResult :=
  let snap := snapOf c entryRegs
  match injectRegs snap nr args with
  | none => none
  | some inj =>
      let rv := exitRegs.rax
      let tr := translateRv rv
      some { writes := [inj, snap], ret := tr.1, errno := tr.2,
             child := { savedRegs := some snap } }

/-! ## Wait-status classifier (pkg/ptrace waitChild; main.go waitChild) -/

/-- The tracing states of the child (`childRunning`, ... constants). -/
inductive ChildState where
  | running
  | signalDelivery
  | syscallEnter
  | syscallExit
  | exited
  | killed
  deriving DecidableEq, Repr

/-- The outcome of one `wait4` call, as classified by the code's
`switch` on the wait status. -/
inductive WaitStatus where
  | exited
  | signaled (sig : Nat)
  | stopped (sig : Nat)
  | continued
  deriving DecidableEq, Repr

/-- The mutable fields of the `Child` struct consulted and updated by
`waitChild` (`childState`, `savedSignal`, `attached`). -/
structure PtChild where
  childState : ChildState
  savedSignal : Nat
  attached : Bool
  deriving DecidableEq, Repr

/-- The `Child` value produced by `NewChild` / `NewPtraceChild`. -/
def newPtChild : PtChild := ⟨ChildState.running, 0, false⟩

/-- The classification step of `waitChild`: examine one wait status and
update the tracking state.  The two panics (`Signaled` by a non-KILL
signal, `Continued`) are modelled by `none`.  A stop signal equal to
`SIGTRAP | bit7thSet` is a syscall stop and toggles the state
(`syscallEnter` if we were not in `syscallEnter`, else `syscallExit`);
any other stop records the signal, possibly sets `attached`, and moves
to `signalDelivery`. -/
def waitChild (pt : PtChild) (w : WaitStatus) : Option PtChild :=
  match w with
  | WaitStatus.exited => some { pt with childState := ChildState.exited }
  | WaitStatus.signaled sig =>
      if sig = SIGKILL then some { pt with childState := ChildState.killed }
      else none
  | WaitStatus.stopped sig =>
      if sig = SIGTRAP ||| bit7thSet then
        if pt.childState ≠ ChildState.syscallEnter then
          some { pt with childState := ChildState.syscallEnter }
        else
          some { pt with childState := ChildState.syscallExit }
      else
        let att := if pt.attached = false ∧ sig = SIGSTOP then true else pt.attached
        some { pt with attached := att, savedSignal := sig,
                       childState := ChildState.signalDelivery }
  | WaitStatus.continued => none

/-- Whether a wait status is a syscall-trap stop (stop signal
`SIGTRAP | bit7thSet`). -/
def isTrapStop (w : WaitStatus) : Bool :=
  match w with
  | WaitStatus.stopped sig => sig == SIGTRAP ||| bit7thSet
  | _ => false

/-- The sequence of tracking states observed along a run of the
classifier over a list of wait statuses (a panic aborts the run). -/
def runObs (pt : PtChild) (ws : List WaitStatus) : List ChildState :=
  match ws with
  | [] => []
  | w :: rest =>
      match waitChild pt w with
      | none => []
      | some pt' => pt'.childState :: runObs pt' rest

/-- A run is kernel-valid when, whenever the tracker is in
`syscallEnter` (an entry stop was observed and the tracee was resumed
towards the matching exit stop), the next wait status is the
syscall-trap stop — the kernel's two-stop-per-syscall guarantee under
`TRACESYSGOOD` — and no classification step panics. -/
def kernelValid (pt : PtChild) (ws : List WaitStatus) : Bool :=
  match ws with
  | [] => true
  | w :: rest =>
      if pt.childState = ChildState.syscallEnter ∧ isTrapStop w = false then false
      else
        match waitChild pt w with
        | none => false
        | some pt' => kernelValid pt' rest

/-- Strict alternation of entry/exit observations: the flag records
whether an entry is pending its exit; an entry observation is allowed
only when none is pending, an exit only when one is; other
observations are ignored. -/
def altFrom (b : Bool) (obs : List ChildState) : Bool :=
  match obs with
  | [] => true
  | s :: rest =>
      if s = ChildState.syscallEnter then !b && altFrom true rest
      else if s = ChildState.syscallExit then b && altFrom false rest
      else altFrom b rest

/-! ## Filesystem model and path swapper (pkg/flip rollover/rollback; main.go) -/

/-- A filesystem state: the existing files as (path, permission-bits)
pairs (the first entry for a path is its current one). -/
structure Fs where
  files : List (String × Nat)
  deriving DecidableEq, Repr

/-- `os.Stat` succeeding with the file's mode. -/
def Fs.statMode (fsS : Fs) (p : String) : Option Nat :=
  (fsS.files.find? (fun e => e.1 == p)).map (fun e => e.2)

/-- Whether `os.Stat` succeeds on the path. -/
def Fs.statOk (fsS : Fs) (p : String) : Bool :=
  (fsS.statMode p).isSome

/-- `os.Rename(oldPath, newPath)`: fails when the source does not
exist; otherwise moves the entry (overwriting any entry at the
destination). -/
def Fs.rename (fsS : Fs) (oldPath newPath : String) : Option Fs :=
  match fsS.statMode oldPath with
  | none => none
  | some m => some ⟨(newPath, m) :: fsS.files.filter (fun e => e.1 ≠ oldPath ∧ e.1 ≠ newPath)⟩

/-- `rollover(filePath)` (pkg/flip/file.go; identical in main.go):
stat the file (capturing its mode), fail if `<path><suffix>` already
exists, rename `path → <path><suffix>`, return the new filesystem and
the captured mode.  Every failure calls the fatal-exit primitive,
modelled by `none`. -/
def rollover (sfx : String) (fsS : Fs) (filePath : String) : Option (Fs × Nat) :=
  match fsS.statMode filePath with
  | none => none
  | some mode =>
      let rolledPath := filePath ++ sfx
      if fsS.statOk rolledPath then none
      else
        match fsS.rename filePath rolledPath with
        | none => none
        | some fsS' => some (fsS', mode)

/-- `rollback(filePath)` (pkg/flip/file.go; the main.go variant differs
only by exiting, instead of returning, in the second guard): return if
`<path><suffix>` does not exist; return if `path` exists; otherwise
call `os.Rename(filePath, rolledPath)` — note the argument order in
the source — and on rename failure only log.  Returns the resulting
filesystem. -/
def rollback (sfx : String) (fsS : Fs) (filePath : String) : Fs :=
  let rolledPath := filePath ++ sfx
  if fsS.statOk rolledPath = false then fsS
  else if fsS.statOk filePath then fsS
  else
    match fsS.rename filePath rolledPath with
    | some fsS' => fsS'
    | none => fsS

/-! ## Flip choreography (pkg/flip RunForFile; main.go startFlip) -/

/-- Oracle for the outcomes of the remote operations performed on the
tracee during one flip: each injected syscall either returns a value or
an in-tracee errno, and the remote memory copy either succeeds or not. -/
structure Oracle where
  fcntlRes : Except Nat Nat
  mmapRes : Except Nat Nat
  memcpOk : Bool
  openRes : Except Nat Nat
  dup2Res : Except Nat Nat
  closeRes : Except Nat Nat
  munmapRes : Except Nat Nat

/-- Observable events of one run of the flip choreography. -/
inductive Ev where
  | renameFile (oldPath newPath : String)
  | setup
  | call (nr : Nat) (args : List Nat)
  | memcpEv (addr size : Nat)
  | rollbackCall
  | logError
  | detach
  | dieEv (code : Nat)
  deriving DecidableEq, Repr

/-- The events of the `sweepUp` label: the munmap injection of the
scratch page (followed by an error log when it fails). `Cleanup`
(detach) follows the sweep on every path through the label. -/
def sweepEvs (o : Oracle) (childAddr : Nat) : List Ev :=
  Ev.call SYS_MUNMAP [childAddr, pageSize, 0, 0, 0, 0] ::
    (match o.munmapRes with
     | Except.error _ => [Ev.logError]
     | Except.ok _ => [])

/-- `RunForFile` (pkg/flip/file.go) after `preflightCheck` has produced
the path and descriptor; `startFlip` in main.go is the same
choreography.  Returns the event trace and the final filesystem.
Control flow from the source: `rollover` (fatal on its failures);
`Setup`; fcntl F_GETFL (on error: rollback, die); mmap of one page (on
error: rollback, die); remote memcpy of the path + NUL (on error:
rollback, goto sweepUp); open (on error: rollback, log, goto sweepUp);
dup2 (on error: log, goto sweepUp — no rollback); close (on error: log);
sweepUp: munmap, then `Cleanup` (detach). -/
def runForFile (o : Oracle) (sfx : String) (fsS : Fs) (filePath : String) (origFd : Nat) :
    List Ev × Fs :=
  match rollover sfx fsS filePath with
  | none => ([Ev.dieEv exitErr], fsS)
  | some (fs1, mode) =>
    let pre : List Ev :=
      [Ev.renameFile filePath (filePath ++ sfx), Ev.setup,
       Ev.call SYS_FCNTL [origFd, F_GETFL, 0]]
    match o.fcntlRes with
    | Except.error _ =>
        (pre ++ [Ev.rollbackCall, Ev.dieEv exitErr], rollback sfx fs1 filePath)
    | Except.ok flag =>
      let pre2 := pre ++ [Ev.call SYS_MMAP
        [0, pageSize, PROT_READ ||| PROT_WRITE, MAP_ANONYMOUS ||| MAP_PRIVATE, 0, 0]]
      match o.mmapRes with
      | Except.error _ =>
          (pre2 ++ [Ev.rollbackCall, Ev.dieEv exitErr], rollback sfx fs1 filePath)
      | Except.ok childAddr =>
        let pre3 := pre2 ++ [Ev.memcpEv childAddr (filePath.utf8ByteSize + 1)]
        if o.memcpOk = false then
          ((pre3 ++ [Ev.rollbackCall] ++ sweepEvs o childAddr) ++ [Ev.detach],
           rollback sfx fs1 filePath)
        else
          let pre4 := pre3 ++ [Ev.call SYS_OPEN [childAddr, flag ||| O_CREAT, mode]]
          match o.openRes with
          | Except.error _ =>
              ((pre4 ++ [Ev.rollbackCall, Ev.logError] ++ sweepEvs o childAddr) ++ [Ev.detach],
               rollback sfx fs1 filePath)
          | Except.ok tmpFd =>
            let pre5 := pre4 ++ [Ev.call SYS_DUP2 [tmpFd, origFd]]
            match o.dup2Res with
            | Except.error _ =>
                ((pre5 ++ [Ev.logError] ++ sweepEvs o childAddr) ++ [Ev.detach], fs1)
            | Except.ok _ =>
              let pre6 := pre5 ++ [Ev.call SYS_CLOSE [tmpFd]]
              match o.closeRes with
              | Except.error _ =>
                  ((pre6 ++ [Ev.logError] ++ sweepEvs o childAddr) ++ [Ev.detach], fs1)
              | Except.ok _ =>
                  ((pre6 ++ sweepEvs o childAddr) ++ [Ev.detach], fs1)

/-- Whether the run fails at a step strictly before the dup2 injection,
following the control flow of `RunForFile`: fcntl, mmap, the remote
path copy, or open. -/
def preDup2StepFails (o : Oracle) : Bool :=
  match o.fcntlRes with
  | Except.error _ => true
  | Except.ok _ =>
    match o.mmapRes with
    | Except.error _ => true
    | Except.ok _ =>
      if o.memcpOk = false then true
      else
        match o.openRes with
        | Except.error _ => true
        | Except.ok _ => false

/-- Whether an event is the munmap injection of the scratch page at
`addr` with the one-page length. -/
def isMunmap (addr : Nat) (e : Ev) : Bool :=
  match e with
  | Ev.call nr (a :: len :: _) => nr == SYS_MUNMAP && a == addr && len == pageSize
  | _ => false

/-- The last event of a trace. -/
def lastEv (tr : List Ev) : Option Ev :=
  match tr with
  | [] => none
  | [e] => some e
  | _ :: e :: rest => lastEv (e :: rest)

/-! ## Descriptor locator and preflight check -/

/-- `getOpenedFds(pid, filePath)` (pkg/flip/file.go; identical in
main.go): enumerate `/proc/<pid>/fd`, keep every descriptor whose
readlink target equals `filePath`.  The directory is modelled as the
list of (descriptor number, link target) pairs. -/
def getOpenedFds (fdTable : List (Nat × String)) (filePath : String) : List Nat :=
  (fdTable.filter (fun e => e.2 == filePath)).map (fun e => e.1)

/-- `preflightCheck(pid, filePath)` (main.go lines 572-595): platform
gate, absolutise the path (`absf` models `filepath.Abs`), stat it,
check the pid, reject paths of byte length at or above one page; every
rejection exits with the argument-error code.  The pkg/flip variant
performs the same five checks and additionally looks up the descriptor
afterwards. -/
def preflightCheck (platformOk : Bool) (absf : String → String) (fsS : Fs)
    (pid : Int) (psz : Nat) (filePath : String) : Except Nat String :=
  if platformOk = false then Except.error exitArgs
  else
    let absPath := absf filePath
    if fsS.statOk absPath = false then Except.error exitArgs
    else if pid ≤ 1 then Except.error exitArgs
    else if psz ≤ absPath.utf8ByteSize then Except.error exitArgs
    else Except.ok absPath

/-- The descriptor located by the monolithic entry path: main.go's
`main` passes `preflightCheck`'s absolutised path to `startFlip`, which
calls `getOpenedFds` with it. -/
def locateFdsMain (absf : String → String) (fdTable : List (Nat × String))
    (filePath : String) : List Nat :=
  getOpenedFds fdTable (absf filePath)

/-- The descriptor located by the packaged entry path: pkg/flip's
`preflightCheck` computes the absolutised path for its checks but calls
`getOpenedFds(pid, filePath)` with the caller's original path string. -/
def locateFdsPkg (fdTable : List (Nat × String)) (filePath : String) : List Nat :=
  getOpenedFds fdTable filePath

/-- `filepath.Abs` for a process whose working directory is `/tmp`,
restricted to already-clean paths: a path starting with `/` is returned
unchanged, otherwise the working directory is prepended. -/
def absAtTmp (s : String) : String :=
  match s.data with
  | '/' :: _ => s
  | _ => "/tmp/" ++ s

/-! ## Shared sample values -/

/-- A filesystem holding `/tmp/a` with mode 0644. -/
def fsW : Fs := ⟨[("/tmp/a", 420)]⟩

/-- The filesystem after a successful rollover of `/tmp/a` (suffix `.flipped`). -/
def fsFlipped : Fs := ⟨[("/tmp/a.flipped", 420)]⟩

/-- A filesystem in which both `/tmp/a` and `/tmp/a.flipped` exist. -/
def fsBoth : Fs := ⟨[("/tmp/a", 420), ("/tmp/a.flipped", 420)]⟩

/-- An oracle on which every remote operation succeeds. -/
def oAllOk : Oracle :=
  ⟨Except.ok 1024, Except.ok 7000, true, Except.ok 5, Except.ok 3, Except.ok 0, Except.ok 0⟩

/-- An oracle on which only the injected dup2 fails (errno 9, EBADF). -/
def oDup2Fail : Oracle :=
  ⟨Except.ok 1024, Except.ok 7000, true, Except.ok 5, Except.error 9, Except.ok 0, Except.ok 0⟩

/-- An oracle on which only the injected open fails (errno 13, EACCES). -/
def oOpenFail : Oracle :=
  ⟨Except.ok 1024, Except.ok 7000, true, Except.error 13, Except.ok 3, Except.ok 0, Except.ok 0⟩

/-! ## Helper lemmas -/

/-- The last event of a trace ending in a singleton. -/
theorem lastEv_append_single (l : List Ev) (a : Ev) : lastEv (l ++ [a]) = some a := by
  induction l with
  | nil => rfl
  | cons x xs ih =>
    cases xs with
    | nil => rfl
    | cons y ys => exact ih

/-- Whether a tracking state is `syscallEnter`. -/
def isEnter : ChildState → Bool
  | ChildState.syscallEnter => true
  | _ => false

/-- A state other than `syscallEnter` has a false `isEnter` flag. -/
theorem isEnter_eq_false {s : ChildState} (h : s ≠ ChildState.syscallEnter) :
    isEnter s = false := by
  cases s <;> simp_all [isEnter]

/-- Along any kernel-valid run, the entry/exit observations alternate;
the Boolean flag tracks whether the current state is `syscallEnter`. -/
theorem altFrom_of_kernelValid (ws : List WaitStatus) : ∀ pt : PtChild,
    kernelValid pt ws = true →
    altFrom (isEnter pt.childState) (runObs pt ws) = true := by
  induction ws with
  | nil => intro pt _; rfl
  | cons w rest ih =>
    intro pt h
    rcases w with _ | sig | sig | _
    · have hne : pt.childState ≠ ChildState.syscallEnter := by
        intro he
        simp [kernelValid, he, isTrapStop] at h
      have h' : kernelValid { pt with childState := ChildState.exited } rest = true := by
        simpa [kernelValid, isTrapStop, hne, waitChild] using h
      have hrec := ih _ h'
      have hb : isEnter pt.childState = false := isEnter_eq_false hne
      simp only [runObs, waitChild]
      rw [hb]
      simpa [altFrom, isEnter] using hrec
    · by_cases hs : sig = SIGKILL
      · have hne : pt.childState ≠ ChildState.syscallEnter := by
          intro he
          simp [kernelValid, he, isTrapStop] at h
        have h' : kernelValid { pt with childState := ChildState.killed } rest = true := by
          simpa [kernelValid, isTrapStop, hne, waitChild, hs] using h
        have hrec := ih _ h'
        have hb : isEnter pt.childState = false := isEnter_eq_false hne
        simp only [runObs, waitChild, hs]
        rw [hb]
        simpa [altFrom, isEnter] using hrec
      · simp [kernelValid, waitChild, hs, isTrapStop] at h
    · by_cases ht : sig = SIGTRAP ||| bit7thSet
      · by_cases he : pt.childState = ChildState.syscallEnter
        · have h' : kernelValid { pt with childState := ChildState.syscallExit } rest = true := by
            simpa [kernelValid, isTrapStop, waitChild, ht, he] using h
          have hrec := ih _ h'
          have hb : isEnter pt.childState = true := by rw [he]; rfl
          simp only [runObs, waitChild]
          rw [if_pos ht, if_neg (not_not_intro he), hb]
          simpa [altFrom, isEnter] using hrec
        · have h' : kernelValid { pt with childState := ChildState.syscallEnter } rest = true := by
            simpa [kernelValid, isTrapStop, waitChild, ht, he] using h
          have hrec := ih _ h'
          have hb : isEnter pt.childState = false := isEnter_eq_false he
          simp only [runObs, waitChild]
          rw [if_pos ht, if_pos he, hb]
          simpa [altFrom, isEnter] using hrec
      · have hne : pt.childState ≠ ChildState.syscallEnter := by
          intro he
          simp [kernelValid, he, isTrapStop, ht] at h
        have h' : kernelValid { pt with
            attached := if pt.attached = false ∧ sig = SIGSTOP then true else pt.attached,
            savedSignal := sig, childState := ChildState.signalDelivery } rest = true := by
          simpa [kernelValid, isTrapStop, hne, waitChild, ht] using h
        have hrec := ih _ h'
        have hb : isEnter pt.childState = false := isEnter_eq_false hne
        simp only [runObs, waitChild]
        rw [if_neg ht, hb]
        simpa [altFrom, isEnter] using hrec
    · simp [kernelValid, waitChild, isTrapStop] at h

/-! ## Claim theorems -/

/-- C1: the claim states that when `<path><suffix>` exists and `path`
does not, `rollback(path)` renames `<path><suffix>` back to `path` so
that `path` exists afterwards.  The source instead calls
`os.Rename(filePath, rolledPath)` — source and destination swapped —
after having just verified that `filePath` does not exist, so the
rename always fails and `rollback` never changes the filesystem: it is
the identity on every state, and in the claimed eligible state the
original path still does not exist afterwards. -/
theorem rollback_never_restores :
    (∀ (sfx : String) (fsS : Fs) (p : String), rollback sfx fsS p = fsS)
  ∧ Fs.statOk fsFlipped ("/tmp/a" ++ ".flipped") = true
  ∧ Fs.statOk fsFlipped "/tmp/a" = false
  ∧ rollback ".flipped" fsFlipped "/tmp/a" = fsFlipped
  ∧ Fs.statOk (rollback ".flipped" fsFlipped "/tmp/a") "/tmp/a" = false := by
  refine ⟨?_, by decide, by decide, by decide, by decide⟩
  intro sfx fsS p
  by_cases h1 : fsS.statOk (p ++ sfx) = false
  · simp [rollback, h1]
  · by_cases h2 : fsS.statOk p = true
    · simp [rollback, h1, h2]
    · have hnone : fsS.statMode p = none := by
        rcases hm : fsS.statMode p with _ | m
        · rfl
        · exact absurd (by simp [Fs.statOk, hm]) h2
      simp [rollback, h1, h2, Fs.rename, hnone]

/-- C2 counterexample: the claim asserts an error result exactly when
`rv ≥ 2^64 - 4095`; at the boundary value `rv = 2^64 - 4095`
(`maxErrnoValue` itself) the code's strict comparison `rv > maxErrnoValue`
is false and the value is returned as the signed integer `-4095` with
no error, not as `(-1, errno 4095)`. -/
theorem translateRv_claim_cex :
    (two64 - 4095 ≤ maxErrnoValue)
  ∧ translateRv maxErrnoValue ≠ (-1, some 4095)
  ∧ translateRv maxErrnoValue = (-4095, none) := by
  refine ⟨by decide, by decide, by decide⟩

/-- C2 amended: `RemoteSyscall` translates a raw 64-bit result `rv`
into `(-1, errno 2^64 - rv)` exactly when `rv` is strictly above
`2^64 - 4095` (equivalently `rv ≥ 2^64 - 4094`, errno range 1..4094),
and into the sign-reinterpreted integer with no error for every other
value, including the boundary `rv = 2^64 - 4095`. -/
theorem translateRv_errno_translation (rv : Nat) (h : rv < two64) :
    (maxErrnoValue < rv →
        translateRv rv = (-1, some (two64 - rv))
        ∧ 1 ≤ two64 - rv ∧ two64 - rv ≤ 4094)
  ∧ (rv ≤ maxErrnoValue → translateRv rv = (toInt64 rv, none)) := by
  constructor
  · intro hgt
    refine ⟨by simp [translateRv, hgt], ?_, ?_⟩
    · simp only [two64, maxErrnoValue] at h hgt ⊢
      omega
    · simp only [two64, maxErrnoValue] at h hgt ⊢
      omega
  · intro hle
    have hn : ¬ maxErrnoValue < rv := by omega
    simp [translateRv, hn]

/-- Witness for the C2 amended theorem at `rv = 2^64 - 1` (errno 1). -/
theorem translateRv_errno_translation_witness :
    translateRv 18446744073709551615 = (-1, some (two64 - 18446744073709551615)) :=
  ((translateRv_errno_translation 18446744073709551615 (by decide)).1 (by decide)).1

/-- C4 counterexample: the claim's alternation consequence fails on the
classifier's step relation when a signal-delivery stop occurs between a
syscall-entry stop and the matching syscall stop: the run
trap-stop, SIGINT-stop, trap-stop produces two `syscallEnter`
observations with no `syscallExit` between them. -/
theorem waitChild_alternation_cex :
    runObs newPtChild
        [WaitStatus.stopped 133, WaitStatus.stopped 2, WaitStatus.stopped 133]
      = [ChildState.syscallEnter, ChildState.signalDelivery, ChildState.syscallEnter]
  ∧ altFrom false (runObs newPtChild
        [WaitStatus.stopped 133, WaitStatus.stopped 2, WaitStatus.stopped 133]) = false := by
  exact ⟨by decide, by decide⟩

/-- C4 amended: on a syscall-trap stop the classifier moves to
`syscallEnter` when the previous state was not `syscallEnter` and to
`syscallExit` otherwise (exactly the code's toggle), and on every
kernel-valid run — one in which, as the kernel guarantees under
`TRACESYSGOOD`, the stop following a `syscallEnter` state is again the
syscall-trap stop — the entry and exit observations strictly
alternate. -/
theorem waitChild_syscall_alternation :
    (∀ pt : PtChild,
        waitChild pt (WaitStatus.stopped (SIGTRAP ||| bit7thSet)) =
          some { pt with childState :=
            if pt.childState ≠ ChildState.syscallEnter then ChildState.syscallEnter
            else ChildState.syscallExit })
  ∧ (∀ ws : List WaitStatus, kernelValid newPtChild ws = true →
        altFrom false (runObs newPtChild ws) = true) := by
  constructor
  · intro pt
    by_cases he : pt.childState = ChildState.syscallEnter <;>
      simp [waitChild, he]
  · intro ws h
    have hx := altFrom_of_kernelValid ws newPtChild h
    simpa [newPtChild, isEnter] using hx

/-- Witness for the C4 amended theorem: a kernel-valid run with an
entry/exit pair, an interleaved signal-delivery stop, and a second
entry/exit pair alternates. -/
theorem waitChild_syscall_alternation_witness :
    altFrom false (runObs newPtChild
      [WaitStatus.stopped 133, WaitStatus.stopped 133, WaitStatus.stopped 19,
       WaitStatus.stopped 133, WaitStatus.stopped 133]) = true :=
  waitChild_syscall_alternation.2
    [WaitStatus.stopped 133, WaitStatus.stopped 133, WaitStatus.stopped 19,
     WaitStatus.stopped 133, WaitStatus.stopped 133] (by decide)

/-- C5: every returning `RemoteSyscall` invocation writes the injected
image into a copy and, as its final register write before returning,
writes back exactly the session snapshot — the register file captured
at the first observed syscall-entry stop (the entry capture when this
call is the first, the previously stored snapshot otherwise) — and the
stored snapshot itself is unchanged by the injection. -/
theorem remoteSyscall_restores_snapshot (c : Child) (entryRegs exitRegs : Regs)
    (nr : Int) (args : List Nat) (h : args.length ≤ 6) :
    ∃ res : RemoteResult,
      remoteSyscall c entryRegs exitRegs nr args = some res
      ∧ res.writes.getLast? = some (snapOf c entryRegs)
      ∧ res.child.savedRegs = some (snapOf c entryRegs)
      ∧ (∀ r0, c.savedRegs = some r0 → snapOf c entryRegs = r0) := by
  have hinj : ∃ inj, injectRegs (snapOf c entryRegs) nr args = some inj := by
    rcases args with _ | ⟨a0, args⟩
    · exact ⟨_, rfl⟩
    rcases args with _ | ⟨a1, args⟩
    · exact ⟨_, rfl⟩
    rcases args with _ | ⟨a2, args⟩
    · exact ⟨_, rfl⟩
    rcases args with _ | ⟨a3, args⟩
    · exact ⟨_, rfl⟩
    rcases args with _ | ⟨a4, args⟩
    · exact ⟨_, rfl⟩
    rcases args with _ | ⟨a5, args⟩
    · exact ⟨_, rfl⟩
    rcases args with _ | ⟨a6, args⟩
    · exact ⟨_, rfl⟩
    simp only [List.length_cons] at h
    omega
  rcases hinj with ⟨inj, hinj⟩
  refine ⟨{ writes := [inj, snapOf c entryRegs],
            ret := (translateRv exitRegs.rax).1,
            errno := (translateRv exitRegs.rax).2,
            child := { savedRegs := some (snapOf c entryRegs) } }, ?_, rfl, rfl, ?_⟩
  · simp [remoteSyscall, hinj]
  · intro r0 hr0
    simp [snapOf, hr0]

/-- Witness for C5 on a session with an existing snapshot (`regs0`) and
a two-argument injection. -/
theorem remoteSyscall_restores_snapshot_witness :
    ∃ res : RemoteResult,
      remoteSyscall ⟨some regs0⟩ regs0 regs0 33 [4, 3] = some res
      ∧ res.writes.getLast? = some (snapOf ⟨some regs0⟩ regs0)
      ∧ res.child.savedRegs = some (snapOf ⟨some regs0⟩ regs0)
      ∧ (∀ r0, (⟨some regs0⟩ : Child).savedRegs = some r0 → snapOf ⟨some regs0⟩ regs0 = r0) :=
  remoteSyscall_restores_snapshot ⟨some regs0⟩ regs0 regs0 33 [4, 3] (by decide)

/-- C6: the injected register image is the snapshot with the
syscall-number register (`Orig_rax`) set to the given number and
exactly the first N argument registers overwritten in the order
rdi, rsi, rdx, r10, r8, r9 (N the argument count, 1 ≤ N ≤ 6); a
no-argument invocation leaves all argument registers equal to the
snapshot, and more than six arguments is fatal (`none`). -/
theorem remoteSyscall_injected_registers (saved : Regs) (nr : Int) :
    injectRegs saved nr [] = some { saved with orig_rax := uint64OfInt nr }
  ∧ (∀ a0, injectRegs saved nr [a0] =
        some { saved with rdi := a0, orig_rax := uint64OfInt nr })
  ∧ (∀ a0 a1, injectRegs saved nr [a0, a1] =
        some { saved with rdi := a0, rsi := a1, orig_rax := uint64OfInt nr })
  ∧ (∀ a0 a1 a2, injectRegs saved nr [a0, a1, a2] =
        some { saved with rdi := a0, rsi := a1, rdx := a2, orig_rax := uint64OfInt nr })
  ∧ (∀ a0 a1 a2 a3, injectRegs saved nr [a0, a1, a2, a3] =
        some { saved with rdi := a0, rsi := a1, rdx := a2, r10 := a3,
                          orig_rax := uint64OfInt nr })
  ∧ (∀ a0 a1 a2 a3 a4, injectRegs saved nr [a0, a1, a2, a3, a4] =
        some { saved with rdi := a0, rsi := a1, rdx := a2, r10 := a3, r8 := a4,
                          orig_rax := uint64OfInt nr })
  ∧ (∀ a0 a1 a2 a3 a4 a5, injectRegs saved nr [a0, a1, a2, a3, a4, a5] =
        some { saved with rdi := a0, rsi := a1, rdx := a2, r10 := a3, r8 := a4, r9 := a5,
                          orig_rax := uint64OfInt nr })
  ∧ (∀ args : List Nat, 6 < args.length → injectRegs saved nr args = none) := by
  refine ⟨rfl, fun a0 => rfl, fun a0 a1 => rfl, fun a0 a1 a2 => rfl,
    fun a0 a1 a2 a3 => rfl, fun a0 a1 a2 a3 a4 => rfl, fun a0 a1 a2 a3 a4 a5 => rfl, ?_⟩
  intro args h
  rcases args with _ | ⟨a0, args⟩
  · simp at h
  rcases args with _ | ⟨a1, args⟩
  · simp at h
  rcases args with _ | ⟨a2, args⟩
  · simp at h
  rcases args with _ | ⟨a3, args⟩
  · simp at h
  rcases args with _ | ⟨a4, args⟩
  · simp at h
  rcases args with _ | ⟨a5, args⟩
  · simp at h
  rcases args with _ | ⟨a6, args⟩
  · simp at h
  rfl

/-- Witness for C6: a seven-argument invocation is fatal, and a
two-argument injection at the sample snapshot evaluates as stated. -/
theorem remoteSyscall_injected_registers_witness :
    injectRegs regs0 33 [7, 8, 9, 10, 11, 12, 13] = none
  ∧ injectRegs regs0 33 [4, 3] =
      some { regs0 with rdi := 4, rsi := 3, orig_rax := uint64OfInt 33 } :=
  ⟨(remoteSyscall_injected_registers regs0 33).2.2.2.2.2.2.2
      [7, 8, 9, 10, 11, 12, 13] (by decide),
   (remoteSyscall_injected_registers regs0 33).2.2.1 4 3⟩

/-- C8: when `<path><suffix>` already exists (as after a successful
flip, where `path` also exists again), the run fails inside `rollover`
before any tracing operation: the whole trace is the single
fatal-exit event with the internal-error code — no attach/setup, no
injected syscall, no rename, no detach — and the filesystem (in
particular the file at `path`) is unchanged. -/
theorem runForFile_rollover_check_blocks
    (o : Oracle) (sfx : String) (fsS : Fs) (p : String) (fd : Nat)
    (h1 : fsS.statOk p = true) (h2 : fsS.statOk (p ++ sfx) = true) :
    runForFile o sfx fsS p fd = ([Ev.dieEv exitErr], fsS) := by
  have hroll : rollover sfx fsS p = none := by
    rcases hm : fsS.statMode p with _ | m
    · simp [Fs.statOk, hm] at h1
    · simp [rollover, hm, h2]
  simp [runForFile, hroll]

/-- Witness for C8 at a filesystem holding both `/tmp/a` and
`/tmp/a.flipped`. -/
theorem runForFile_rollover_check_blocks_witness :
    runForFile oAllOk ".flipped" fsBoth "/tmp/a" 3 = ([Ev.dieEv exitErr], fsBoth) :=
  runForFile_rollover_check_blocks oAllOk ".flipped" fsBoth "/tmp/a" 3
    (by decide) (by decide)

/-- C9: with the platform, stat and pid checks passing, the preflight
check accepts exactly the paths whose absolutised form has byte length
strictly below the page size — returning the absolutised path, whose
length plus the NUL terminator then fits in the one-page scratch
region — and rejects length at or above the page size with the
argument-error exit code. -/
theorem preflightCheck_path_length
    (absf : String → String) (fsS : Fs) (pid : Int) (psz : Nat) (p : String)
    (hstat : fsS.statOk (absf p) = true) (hpid : 1 < pid) :
    ((absf p).utf8ByteSize < psz →
        preflightCheck true absf fsS pid psz p = Except.ok (absf p)
        ∧ (absf p).utf8ByteSize + 1 ≤ psz)
  ∧ (psz ≤ (absf p).utf8ByteSize →
        preflightCheck true absf fsS pid psz p = Except.error exitArgs) := by
  have hpid' : ¬ pid ≤ 1 := by omega
  constructor
  · intro hlt
    have hlen : ¬ psz ≤ (absf p).utf8ByteSize := by omega
    exact ⟨by simp [preflightCheck, hstat, hpid', hlen], by omega⟩
  · intro hge
    simp [preflightCheck, hstat, hpid', hge]

/-- Witness for C9: `/tmp/a` (6 bytes) is accepted against the 4096
byte page, and its NUL-terminated form fits in the page. -/
theorem preflightCheck_path_length_witness :
    preflightCheck true (fun s => s) fsW 2 4096 "/tmp/a" = Except.ok "/tmp/a"
    ∧ "/tmp/a".utf8ByteSize + 1 ≤ 4096 :=
  (preflightCheck_path_length (fun s => s) fsW 2 4096 "/tmp/a"
    (by decide) (by decide)).1 (by decide)

/-- C10: the claim asserts that the monolithic entry path (main.go,
which hands `getOpenedFds` the absolutised path) and the packaged one
(pkg/flip, whose `preflightCheck` absolutises the path for its checks
but passes the caller's original string to `getOpenedFds`) locate the
same descriptor for every argument, in particular for relative ones.
With working directory `/tmp`, a tracee holding `/tmp/a.log` on
descriptor 3, and argument `a.log`, the monolithic path finds
descriptor 3 while the packaged path compares the relative string
against the absolute readlink target and finds nothing; the two agree
on the already-absolute argument. -/
theorem locateFds_main_pkg_diverge :
    absAtTmp "a.log" = "/tmp/a.log"
  ∧ locateFdsMain absAtTmp [(3, "/tmp/a.log")] "a.log" = [3]
  ∧ locateFdsPkg [(3, "/tmp/a.log")] "a.log" = []
  ∧ locateFdsMain absAtTmp [(3, "/tmp/a.log")] "/tmp/a.log" =
      locateFdsPkg [(3, "/tmp/a.log")] "/tmp/a.log" := by
  exact ⟨by decide, by decide, by decide, by decide⟩

/-- C7: on every run whose rollover succeeded, whose fcntl step
succeeded, and whose injected mmap succeeded returning `addr`, the
trace contains exactly one munmap injection of `addr` with the
one-page length and ends with the detach — so the single munmap
attempt precedes detach on every such control path, whichever
intermediate step (path copy, open, dup2, close) failed. -/
theorem runForFile_munmap_once_before_detach
    (o : Oracle) (sfx : String) (fsS : Fs) (p : String) (fd : Nat)
    (fm : Fs × Nat) (h : rollover sfx fsS p = some fm)
    (flag : Nat) (hf : o.fcntlRes = Except.ok flag)
    (addr : Nat) (hm : o.mmapRes = Except.ok addr) :
    List.countP (isMunmap addr) (runForFile o sfx fsS p fd).1 = 1
    ∧ lastEv (runForFile o sfx fsS p fd).1 = some Ev.detach := by
  rcases fm with ⟨fs1, mode⟩
  cases hmc : o.memcpOk <;>
  rcases hop : o.openRes with e3 | tmpFd <;>
  rcases hd : o.dup2Res with e4 | d <;>
  rcases hc : o.closeRes with e5 | cOk <;>
  rcases hmu : o.munmapRes with e6 | u <;>
  refine ⟨?_, ?_⟩ <;>
  simp [runForFile, sweepEvs, isMunmap, lastEv, h, hf, hm, hmc, hop, hd, hc, hmu,
        SYS_MUNMAP, SYS_FCNTL, SYS_MMAP, SYS_OPEN, SYS_DUP2, SYS_CLOSE, pageSize,
        List.countP_cons]

/-- Witness for C7 on the all-success oracle: the scratch page at
address 7000 is munmapped exactly once and the run ends with detach. -/
theorem runForFile_munmap_once_before_detach_witness :
    List.countP (isMunmap 7000) (runForFile oAllOk ".flipped" fsW "/tmp/a" 3).1 = 1
    ∧ lastEv (runForFile oAllOk ".flipped" fsW "/tmp/a" 3).1 = some Ev.detach :=
  runForFile_munmap_once_before_detach oAllOk ".flipped" fsW "/tmp/a" 3
    (fsFlipped, 420) (by decide) 1024 rfl 7000 rfl

/-- C3 counterexample: the claim includes the dup2-failure case among
those that invoke rollback, but on an oracle where only the injected
dup2 fails the run (whose rename did happen) reaches detach without
ever invoking rollback. -/
theorem runForFile_dup2_no_rollback_cex :
    oDup2Fail.dup2Res = Except.error 9
  ∧ Ev.renameFile "/tmp/a" "/tmp/a.flipped" ∈ (runForFile oDup2Fail ".flipped" fsW "/tmp/a" 3).1
  ∧ Ev.rollbackCall ∉ (runForFile oDup2Fail ".flipped" fsW "/tmp/a" 3).1
  ∧ Ev.detach ∈ (runForFile oDup2Fail ".flipped" fsW "/tmp/a" 3).1 :=
  ⟨rfl, by decide, by decide, by decide⟩

/-- C3 amended: on every run whose rollover succeeded, the rollback of
the on-disk rename is invoked exactly when one of the steps strictly
before the dup2 injection fails (fcntl, mmap, the remote path copy, or
open); in particular a failure of the injected dup2 itself does not
invoke rollback. -/
theorem runForFile_rollback_iff_preDup2_failure
    (o : Oracle) (sfx : String) (fsS : Fs) (p : String) (fd : Nat)
    (fm : Fs × Nat) (h : rollover sfx fsS p = some fm) :
    preDup2StepFails o = true ↔ Ev.rollbackCall ∈ (runForFile o sfx fsS p fd).1 := by
  rcases fm with ⟨fs1, mode⟩
  rcases hf : o.fcntlRes with e | flag <;>
  rcases hm : o.mmapRes with e2 | addr <;>
  cases hmc : o.memcpOk <;>
  rcases hop : o.openRes with e3 | tmpFd <;>
  rcases hd : o.dup2Res with e4 | d <;>
  rcases hc : o.closeRes with e5 | cOk <;>
  rcases hmu : o.munmapRes with e6 | u <;>
  simp [runForFile, preDup2StepFails, sweepEvs, h, hf, hm, hmc, hop, hd, hc, hmu]

/-- Witness for the C3 amended theorem: on the open-failure oracle the
rollback call appears in the trace. -/
theorem runForFile_rollback_iff_preDup2_failure_witness :
    Ev.rollbackCall ∈ (runForFile oOpenFail ".flipped" fsW "/tmp/a" 3).1 :=
  (runForFile_rollback_iff_preDup2_failure oOpenFail ".flipped" fsW "/tmp/a" 3
    (fsFlipped, 420) (by decide)).mp (by decide)
